import Mathlib

/-
  Verification of the gara-frontend API-route pipeline.

  Shallow embedding of:
  - src/lib/observability/errorHandler.ts  (shouldExposeError, extractErrorMessage,
    createErrorResponse, handleApiError)
  - src/lib/observability/metrics.ts       (ConsoleMetricsClient, FileMetricsClient,
    NoOpMetricsClient, trackOperation)
  - the API route handlers (albums collection, single album, album images,
    reorder, upload, image listing) and the LocalFileStorage listing.

  JavaScript promises are modelled by JsResult: a resolved value or a thrown
  JsError.  A route handler is a pure function from its inputs (session,
  parsed request body, environment configuration, the backend fetch outcome)
  to the HTTP response it produces, paired with the outbound backend request
  it issued, if any.
-/

/-- A JavaScript Error value: name, message and stack. -/
structure JsError where
  name : String
  message : String
  stack : String
deriving DecidableEq

/-- Outcome of an awaited JavaScript promise: resolved value or thrown error. -/
inductive JsResult (α : Type) where
  | ok (value : α)
  | thrown (error : JsError)
deriving DecidableEq

/-- JSON values, as produced by response.json() / NextResponse.json. -/
inductive Json where
  | null
  | str (s : String)
  | num (n : Int)
  | obj (fields : List (String × Json))

/-- Field lookup in a JSON object field list (first match wins). -/
def jsonLookup : List (String × Json) → String → Option Json
  | [], _ => none
  | (k, v) :: rest, key => if k = key then some v else jsonLookup rest key

/-- JavaScript property access on a parsed JSON value. -/
def Json.getField : Json → String → Option Json
  | .obj fields, key => jsonLookup fields key
  | _, _ => none

/-- JavaScript String(v) coercion for a JSON value. -/
def Json.jsToString : Json → String
  | .null => "null"
  | .str s => s
  | .num n => toString n
  | .obj _ => "[object Object]"

/-- Models the expression err.message ?? fallback on a parsed JSON error body:
the fallback is used when the message property is absent or null. -/
def jsonMessageOr (j : Json) (fallback : String) : String :=
  match j.getField "message" with
  | none => fallback
  | some Json.null => fallback
  | some v => v.jsToString

/-- A fetch Response as the routes consume it: ok flag, status code, the
outcome of response.json(), and the result of response.text(). -/
structure FetchResponse where
  ok : Bool
  status : Nat
  jsonBody : JsResult Json
  textBody : String

/-- An HTTP response produced by a route handler (NextResponse.json). -/
structure ApiResponse where
  status : Nat
  body : Json

/-- A response with a single error field, as in
NextResponse.json with an error message and a status. -/
def plainErrorResponse (status : Nat) (msg : String) : ApiResponse :=
  ⟨status, Json.obj [("error", Json.str msg)]⟩

/-- The standardized 401 response returned by every mutating route when
getServerSession yields no session. -/
def unauthorizedResponse : ApiResponse := plainErrorResponse 401 "Unauthorized"

/-- Character-list prefix test (avoids any library string machinery). -/
def charsPrefix : List Char → List Char → Bool
  | [], _ => true
  | _ :: _, [] => false
  | a :: as, b :: bs => a == b && charsPrefix as bs

/-- Character-list substring test. -/
def charsContains (needle : List Char) : List Char → Bool
  | [] => needle.isEmpty
  | c :: rest => charsPrefix needle (c :: rest) || charsContains needle rest

/-- String containment: does the haystack contain the needle as a substring. -/
def strContains (hay needle : String) : Bool :=
  charsContains needle.data hay.data

/- ------------------------------------------------------------------
   src/lib/observability/errorHandler.ts
   ------------------------------------------------------------------ -/

/-- A value of TypeScript type unknown caught by an error handler: an Error
instance, a string, an object with a message property (already coerced by
String), or anything else. -/
inductive JsUnknown where
  | errObj (e : JsError)
  | str (s : String)
  | objWithMessage (m : String)
  | other
deriving DecidableEq

/-- extractErrorMessage from errorHandler.ts. -/
def extractErrorMessage : JsUnknown → String
  | .errObj e => e.message
  | .str s => s
  | .objWithMessage m => m
  | .other => "An unknown error occurred"

/-- shouldExposeError from errorHandler.ts: only 4xx messages are exposed. -/
def shouldExposeError (statusCode : Nat) : Bool :=
  decide (400 ≤ statusCode ∧ statusCode < 500)

/-- The ErrorResponse shape from errorHandler.ts; message and details are
omitted from the serialized body when undefined. -/
structure ErrorResponse where
  error : String
  message : Option String
  details : Option (String × String)

/-- createErrorResponse from errorHandler.ts.  The isDevelopment flag models
the NODE_ENV dev check guarding the details field. -/
def createErrorResponse (error : JsUnknown) (statusCode : Nat)
    (userMessage : Option String) (isDevelopment : Bool) : ErrorResponse :=
  let shouldExpose := shouldExposeError statusCode
  let errorMessage := extractErrorMessage error
  { error := userMessage.getD (if shouldExpose then errorMessage else "Internal server error")
    message := if shouldExpose then some errorMessage else none
    details :=
      if isDevelopment then
        match error with
        | .errObj e => some (e.name, e.stack)
        | _ => none
      else none }

/-- Serialization of an ErrorResponse by NextResponse.json: undefined
fields are absent from the JSON body. -/
def ErrorResponse.toJson (r : ErrorResponse) : Json :=
  Json.obj ([("error", Json.str r.error)]
    ++ (match r.message with
        | some m => [("message", Json.str m)]
        | none => [])
    ++ (match r.details with
        | some (n, s) => [("details", Json.obj [("name", Json.str n), ("stack", Json.str s)])]
        | none => []))

/-- handleApiError from errorHandler.ts: logs, emits metrics (both free of
caller-visible effects) and returns the createErrorResponse body with the
given status code. -/
def handleApiError (error : JsUnknown) (statusCode : Nat)
    (userMessage : Option String) (isDevelopment : Bool) : ApiResponse :=
  { status := statusCode
    body := (createErrorResponse error statusCode userMessage isDevelopment).toJson }

/- ------------------------------------------------------------------
   src/lib/observability/metrics.ts
   ------------------------------------------------------------------ -/

/-- A metric record.  Only the name is modelled: value, unit, dimensions and
timestamp never influence control flow in metrics.ts. -/
structure Metric where
  name : String
deriving DecidableEq

/-- The metrics client backends created by createMetricsClient in
metrics.ts: console, file, or the no-op client. -/
inductive ClientKind where
  | console
  | file
  | noop
deriving DecidableEq

/-- FileMetricsClient.flush: on a write failure the error is caught, logged,
and the batch is re-queued; the promise never rejects.  The writeOk flag is
the outcome of the underlying appendFile call. -/
def flushFile (writeOk : Bool) (buffer : List Metric) : JsResult Unit × List Metric :=
  if buffer.isEmpty then (.ok (), buffer)
  else if writeOk then (.ok (), [])
  else (.ok (), buffer)

/-- FileMetricsClient.putMetric: buffer the metric and flush once the buffer
reaches BUFFER_SIZE (100). -/
def putMetricFile (writeOk : Bool) (m : Metric) (buffer : List Metric) :
    JsResult Unit × List Metric :=
  let buf := buffer ++ [m]
  if 100 ≤ buf.length then flushFile writeOk buf else (.ok (), buf)

/-- One metric emission (trackDuration / trackCount / trackError all reduce
to putMetric) on a given client backend.  The console client logs the metric
(logging does not throw); the no-op client does nothing. -/
def clientEmit (k : ClientKind) (writeOk : Bool) (m : Metric) (buffer : List Metric) :
    JsResult Unit × List Metric :=
  match k with
  | .console => (.ok (), buffer)
  | .noop => (.ok (), buffer)
  | .file => putMetricFile writeOk m buffer

/-- The catch block of trackOperation: emit the duration metric, the
Failure count and the Errors count, then re-throw the caught error.  A
hypothetical rejection of one of the awaited emissions would propagate
instead; ws gives the sink-write outcome of the i-th emission. -/
def trackOperationCatch {T : Type} (k : ClientKind) (ws : Nat → Bool) (i : Nat)
    (caught : JsError) (name : String) (st : List Metric) : JsResult T × List Metric :=
  match clientEmit k (ws i) ⟨name⟩ st with
  | (.thrown m, st1) => (.thrown m, st1)
  | (.ok _, st1) =>
    match clientEmit k (ws (i + 1)) ⟨name ++ ".Failure"⟩ st1 with
    | (.thrown m, st2) => (.thrown m, st2)
    | (.ok _, st2) =>
      match clientEmit k (ws (i + 2)) ⟨"Errors"⟩ st2 with
      | (.thrown m, st3) => (.thrown m, st3)
      | (.ok _, st3) => (.thrown caught, st3)

/-- trackOperation from metrics.ts: await the operation; on success emit a
duration metric and a Success count and return the result; on failure run
the catch block.  A hypothetical rejection of a success-path emission is
caught by the catch block, whose re-thrown error would then be the metrics
error, exactly as in the JavaScript control flow. -/
def trackOperation {T : Type} (k : ClientKind) (ws : Nat → Bool) (name : String)
    (op : JsResult T) (st : List Metric) : JsResult T × List Metric :=
  match op with
  | .thrown e => trackOperationCatch k ws 0 e name st
  | .ok r =>
    match clientEmit k (ws 0) ⟨name⟩ st with
    | (.thrown m, st1) => trackOperationCatch k ws 1 m name st1
    | (.ok _, st1) =>
      match clientEmit k (ws 1) ⟨name ++ ".Success"⟩ st1 with
      | (.thrown m, st2) => trackOperationCatch k ws 2 m name st2
      | (.ok _, st2) => (.ok r, st2)

/-- Every metrics client backend fulfils the never-throw contract: each
emission resolves, whatever the underlying sink write did. -/
theorem clientEmit_ok (k : ClientKind) (w : Bool) (m : Metric) (st : List Metric) :
    ∃ st2, clientEmit k w m st = (JsResult.ok (), st2) := by
  cases k with
  | console => exact ⟨st, rfl⟩
  | noop => exact ⟨st, rfl⟩
  | file =>
    simp only [clientEmit, putMetricFile, flushFile]
    repeat' split
    all_goals exact ⟨_, rfl⟩

/-- The catch block always re-throws the caught error, since metric
emissions never reject. -/
theorem trackOperationCatch_fst {T : Type} (k : ClientKind) (ws : Nat → Bool) (i : Nat)
    (caught : JsError) (name : String) (st : List Metric) :
    (trackOperationCatch (T := T) k ws i caught name st).1 = JsResult.thrown caught := by
  obtain ⟨s1, h1⟩ := clientEmit_ok k (ws i) ⟨name⟩ st
  obtain ⟨s2, h2⟩ := clientEmit_ok k (ws (i + 1)) ⟨name ++ ".Failure"⟩ s1
  obtain ⟨s3, h3⟩ := clientEmit_ok k (ws (i + 2)) ⟨"Errors"⟩ s2
  simp [trackOperationCatch, h1, h2, h3]

/-- trackOperation is transparent: its outcome is exactly the wrapped
operation's outcome, for every client backend and every sink-write outcome. -/
theorem trackOperation_fst {T : Type} (k : ClientKind) (ws : Nat → Bool) (name : String)
    (op : JsResult T) (st : List Metric) :
    (trackOperation k ws name op st).1 = op := by
  cases op with
  | thrown e => simpa [trackOperation] using trackOperationCatch_fst k ws 0 e name st
  | ok r =>
    obtain ⟨s1, h1⟩ := clientEmit_ok k (ws 0) ⟨name⟩ st
    obtain ⟨s2, h2⟩ := clientEmit_ok k (ws 1) ⟨name ++ ".Success"⟩ s1
    simp [trackOperation, h1, h2]

/- ------------------------------------------------------------------
   Outbound request construction shared by the routes
   ------------------------------------------------------------------ -/

/-- JavaScript template-literal interpolation of a possibly-undefined
environment variable: undefined prints as the string undefined. -/
def jsTemplateOpt : Option String → String
  | none => "undefined"
  | some s => s

/-- The JavaScript expression v or-else fallback over a possibly-undefined
string: the fallback is used when v is undefined or empty (falsy). -/
def jsOrString (v : Option String) (fallback : String) : String :=
  match v with
  | none => fallback
  | some s => if s = "" then fallback else s

/-- Headers sent by POST /api/albums (src/app/api/albums/route.ts). -/
def createAlbumHeaders (apiKey : Option String) : List (String × String) :=
  [("Content-Type", "application/json"), ("X-API-Key", jsOrString apiKey "")]

/-- Headers sent by PUT /api/albums/id. -/
def updateAlbumHeaders (apiKey : Option String) : List (String × String) :=
  [("Content-Type", "application/json"), ("X-API-Key", jsOrString apiKey "")]

/-- Headers sent by DELETE /api/albums/id. -/
def deleteAlbumHeaders (apiKey : Option String) : List (String × String) :=
  [("X-API-Key", jsOrString apiKey "")]

/-- Headers sent by POST /api/albums/id/images. -/
def addImagesHeaders (apiKey : Option String) : List (String × String) :=
  [("Content-Type", "application/json"), ("X-API-Key", jsOrString apiKey "")]

/-- Headers sent by DELETE /api/albums/id/images/imageId. -/
def removeImageHeaders (apiKey : Option String) : List (String × String) :=
  [("X-API-Key", jsOrString apiKey "")]

/-- Headers sent by PUT /api/albums/id/reorder. -/
def reorderHeaders (apiKey : Option String) : List (String × String) :=
  [("Content-Type", "application/json"), ("X-API-Key", jsOrString apiKey "")]

/-- Headers sent by POST /api/upload: the X-API-Key header is added only
when GARA_API_KEY is set (truthy). -/
def uploadHeaders (apiKey : Option String) : List (String × String) :=
  match apiKey with
  | none => []
  | some k => if k = "" then [] else [("X-API-Key", k)]

/-- An outbound backend request issued by a route handler. -/
structure OutboundRequest where
  url : String
  headers : List (String × String)
deriving DecidableEq

/- ------------------------------------------------------------------
   Route handlers.  Each handler takes the session, the parsed request,
   the environment (backend URL and API key) and the backend fetch
   outcome, and returns the HTTP response paired with the outbound
   request it issued (none when the backend was never contacted).
   ------------------------------------------------------------------ -/

/-- The operation wrapped by trackOperation in POST /api/albums: fetch, and
on a non-ok backend status parse the JSON error body and throw an Error
carrying its message field or the fallback. -/
def createAlbumFetch (fetchResult : JsResult FetchResponse) : JsResult Json :=
  match fetchResult with
  | .thrown e => .thrown e
  | .ok resp =>
    if resp.ok then resp.jsonBody
    else
      match resp.jsonBody with
      | .thrown e => .thrown e
      | .ok errJson => .thrown ⟨"Error", jsonMessageOr errJson "Album creation failed", ""⟩

/-- POST /api/albums (current route with observability, the first variant in
src/unnamed/part_008): session gate, parse body, trackOperation around the
backend call, 201 on success, handleApiError otherwise. -/
def albums_POST (session : Option Unit) (reqJson : JsResult Json)
    (backendUrl : Option String) (apiKey : Option String)
    (fetchResult : JsResult FetchResponse) (k : ClientKind) (ws : Nat → Bool)
    (isDevelopment : Bool) (st : List Metric) : ApiResponse × Option OutboundRequest :=
  let out : OutboundRequest :=
    ⟨jsTemplateOpt backendUrl ++ "/api/albums", createAlbumHeaders apiKey⟩
  match session with
  | none => (unauthorizedResponse, none)
  | some _ =>
    match reqJson with
    | .thrown e => (handleApiError (.errObj e) 500 none isDevelopment, none)
    | .ok _ =>
      match (trackOperation k ws "CreateAlbum" (createAlbumFetch fetchResult) st).1 with
      | .ok data => (⟨201, data⟩, some out)
      | .thrown e => (handleApiError (.errObj e) 500 none isDevelopment, some out)

/-- The operation wrapped by trackOperation in GET /api/albums/id: fetch and
throw a fixed Album-not-found error on any non-ok backend status. -/
def fetchAlbumFetch (fetchResult : JsResult FetchResponse) : JsResult Json :=
  match fetchResult with
  | .thrown e => .thrown e
  | .ok resp =>
    if resp.ok then resp.jsonBody
    else .thrown ⟨"Error", "Album not found", ""⟩

/-- GET /api/albums/id (src/unnamed/part_005): public read; every failure is
delegated to handleApiError with an explicit 404 status. -/
def albumId_GET (backendUrl : Option String) (id : String)
    (fetchResult : JsResult FetchResponse) (k : ClientKind) (ws : Nat → Bool)
    (isDevelopment : Bool) (st : List Metric) : ApiResponse × Option OutboundRequest :=
  let out : OutboundRequest := ⟨jsTemplateOpt backendUrl ++ "/api/albums/" ++ id, []⟩
  match (trackOperation k ws "FetchAlbum" (fetchAlbumFetch fetchResult) st).1 with
  | .ok data => (⟨200, data⟩, some out)
  | .thrown e => (handleApiError (.errObj e) 404 none isDevelopment, some out)

/-- The operation wrapped by trackOperation in PUT /api/albums/id. -/
def updateAlbumFetch (fetchResult : JsResult FetchResponse) : JsResult Json :=
  match fetchResult with
  | .thrown e => .thrown e
  | .ok resp =>
    if resp.ok then resp.jsonBody
    else
      match resp.jsonBody with
      | .thrown e => .thrown e
      | .ok errJson => .thrown ⟨"Error", jsonMessageOr errJson "Album update failed", ""⟩

/-- PUT /api/albums/id (src/unnamed/part_005): session gate, then the update
call; failures delegate to handleApiError with the default 500 status. -/
def albumId_PUT (session : Option Unit) (reqJson : JsResult Json)
    (backendUrl : Option String) (apiKey : Option String) (id : String)
    (fetchResult : JsResult FetchResponse) (k : ClientKind) (ws : Nat → Bool)
    (isDevelopment : Bool) (st : List Metric) : ApiResponse × Option OutboundRequest :=
  let out : OutboundRequest :=
    ⟨jsTemplateOpt backendUrl ++ "/api/albums/" ++ id, updateAlbumHeaders apiKey⟩
  match session with
  | none => (unauthorizedResponse, none)
  | some _ =>
    match reqJson with
    | .thrown e => (handleApiError (.errObj e) 500 none isDevelopment, none)
    | .ok _ =>
      match (trackOperation k ws "UpdateAlbum" (updateAlbumFetch fetchResult) st).1 with
      | .ok data => (⟨200, data⟩, some out)
      | .thrown e => (handleApiError (.errObj e) 500 none isDevelopment, some out)

/-- The operation wrapped by trackOperation in DELETE /api/albums/id. -/
def deleteAlbumFetch (fetchResult : JsResult FetchResponse) : JsResult Json :=
  match fetchResult with
  | .thrown e => .thrown e
  | .ok resp =>
    if resp.ok then resp.jsonBody
    else
      match resp.jsonBody with
      | .thrown e => .thrown e
      | .ok errJson => .thrown ⟨"Error", jsonMessageOr errJson "Album deletion failed", ""⟩

/-- DELETE /api/albums/id (src/unnamed/part_005). -/
def albumId_DELETE (session : Option Unit) (backendUrl : Option String)
    (apiKey : Option String) (id : String) (fetchResult : JsResult FetchResponse)
    (k : ClientKind) (ws : Nat → Bool) (isDevelopment : Bool) (st : List Metric) :
    ApiResponse × Option OutboundRequest :=
  let out : OutboundRequest :=
    ⟨jsTemplateOpt backendUrl ++ "/api/albums/" ++ id, deleteAlbumHeaders apiKey⟩
  match session with
  | none => (unauthorizedResponse, none)
  | some _ =>
    match (trackOperation k ws "DeleteAlbum" (deleteAlbumFetch fetchResult) st).1 with
    | .ok data => (⟨200, data⟩, some out)
    | .thrown e => (handleApiError (.errObj e) 500 none isDevelopment, some out)

/-- POST /api/albums/id/images (src/app/api/albums/id/images/route.ts):
session gate; a non-ok backend reply is parsed and passed through with the
backend status; any thrown error yields a plain 500. -/
def albumImages_POST (session : Option Unit) (reqJson : JsResult Json)
    (backendUrl : Option String) (apiKey : Option String) (id : String)
    (fetchResult : JsResult FetchResponse) : ApiResponse × Option OutboundRequest :=
  let out : OutboundRequest :=
    ⟨jsTemplateOpt backendUrl ++ "/api/albums/" ++ id ++ "/images", addImagesHeaders apiKey⟩
  match session with
  | none => (unauthorizedResponse, none)
  | some _ =>
    match reqJson with
    | .thrown _ => (plainErrorResponse 500 "Internal server error", none)
    | .ok _ =>
      match fetchResult with
      | .thrown _ => (plainErrorResponse 500 "Internal server error", some out)
      | .ok resp =>
        if resp.ok then
          match resp.jsonBody with
          | .ok data => (⟨200, data⟩, some out)
          | .thrown _ => (plainErrorResponse 500 "Internal server error", some out)
        else
          match resp.jsonBody with
          | .ok errJson => (⟨resp.status, errJson⟩, some out)
          | .thrown _ => (plainErrorResponse 500 "Internal server error", some out)

/-- DELETE /api/albums/id/images/imageId: same shape as the add-images
route, without a request body. -/
def albumImage_DELETE (session : Option Unit) (backendUrl : Option String)
    (apiKey : Option String) (id : String) (imageId : String)
    (fetchResult : JsResult FetchResponse) : ApiResponse × Option OutboundRequest :=
  let out : OutboundRequest :=
    ⟨jsTemplateOpt backendUrl ++ "/api/albums/" ++ id ++ "/images/" ++ imageId,
      removeImageHeaders apiKey⟩
  match session with
  | none => (unauthorizedResponse, none)
  | some _ =>
    match fetchResult with
    | .thrown _ => (plainErrorResponse 500 "Internal server error", some out)
    | .ok resp =>
      if resp.ok then
        match resp.jsonBody with
        | .ok data => (⟨200, data⟩, some out)
        | .thrown _ => (plainErrorResponse 500 "Internal server error", some out)
      else
        match resp.jsonBody with
        | .ok errJson => (⟨resp.status, errJson⟩, some out)
        | .thrown _ => (plainErrorResponse 500 "Internal server error", some out)

/-- PUT /api/albums/id/reorder (src/app/api/albums/id/reorder/route.ts):
session gate; trackOperation wraps only the fetch itself; a non-ok backend
reply is parsed and passed through with the backend status; thrown errors
delegate to handleApiError with the default 500 status. -/
def reorder_PUT (session : Option Unit) (reqJson : JsResult Json)
    (backendUrl : Option String) (apiKey : Option String) (id : String)
    (fetchResult : JsResult FetchResponse) (k : ClientKind) (ws : Nat → Bool)
    (isDevelopment : Bool) (st : List Metric) : ApiResponse × Option OutboundRequest :=
  let out : OutboundRequest :=
    ⟨jsTemplateOpt backendUrl ++ "/api/albums/" ++ id ++ "/reorder", reorderHeaders apiKey⟩
  match session with
  | none => (unauthorizedResponse, none)
  | some _ =>
    match reqJson with
    | .thrown e => (handleApiError (.errObj e) 500 none isDevelopment, none)
    | .ok _ =>
      match (trackOperation k ws "ReorderAlbumImages" fetchResult st).1 with
      | .thrown e => (handleApiError (.errObj e) 500 none isDevelopment, some out)
      | .ok resp =>
        if resp.ok then
          match resp.jsonBody with
          | .ok data => (⟨200, data⟩, some out)
          | .thrown e => (handleApiError (.errObj e) 500 none isDevelopment, some out)
        else
          match resp.jsonBody with
          | .ok errJson => (⟨resp.status, errJson⟩, some out)
          | .thrown e => (handleApiError (.errObj e) 500 none isDevelopment, some out)

/-- The file part extracted from the upload form data. -/
structure UploadFile where
  size : Nat
  type : String
deriving DecidableEq

/-- The MIME-type allow-list of POST /api/upload. -/
def validTypes : List String := ["image/jpeg", "image/png", "image/gif", "image/webp"]

/-- POST /api/upload (src/app/api/upload/route.ts): session gate, file
presence, 50 MiB size ceiling, MIME allow-list, then the backend upload; a
non-ok backend reply passes its text body through (or a fixed fallback when
empty); thrown errors yield a plain 500. -/
def upload_POST (session : Option Unit) (formData : JsResult (Option UploadFile))
    (apiUrl : Option String) (apiKey : Option String)
    (fetchResult : JsResult FetchResponse) : ApiResponse × Option OutboundRequest :=
  match session with
  | none => (unauthorizedResponse, none)
  | some _ =>
    match formData with
    | .thrown _ => (plainErrorResponse 500 "Internal server error", none)
    | .ok none => (plainErrorResponse 400 "No file provided", none)
    | .ok (some file) =>
      if file.size > 50 * 1024 * 1024 then
        (plainErrorResponse 400 "File too large", none)
      else if !(validTypes.contains file.type) then
        (plainErrorResponse 400 "Invalid file type", none)
      else
        let out : OutboundRequest :=
          ⟨jsOrString apiUrl "http://localhost:8080" ++ "/api/images/upload",
            uploadHeaders apiKey⟩
        match fetchResult with
        | .thrown _ => (plainErrorResponse 500 "Internal server error", some out)
        | .ok resp =>
          if resp.ok then
            match resp.jsonBody with
            | .ok data => (⟨200, data⟩, some out)
            | .thrown _ => (plainErrorResponse 500 "Internal server error", some out)
          else
            (⟨resp.status,
              Json.obj [("error",
                Json.str (if resp.textBody = "" then "Upload failed" else resp.textBody))]⟩,
              some out)

/-- Modelled from the spec: the backend-proxying GET /api/images route is
absent from src (only its test suite at src/app/api/images/route.ts is
present).  Per the spec and those tests, it returns 500 with message
Backend API not configured when the backend base URL is unset or empty,
without any outbound call; otherwise it proxies the backend listing and
maps failures to a generic 500. -/
def images_GET (apiUrl : Option String) (fetchResult : JsResult FetchResponse) :
    ApiResponse × Option OutboundRequest :=
  match apiUrl with
  | none => (plainErrorResponse 500 "Backend API not configured", none)
  | some u =>
    if u = "" then (plainErrorResponse 500 "Backend API not configured", none)
    else
      let out : OutboundRequest := ⟨u ++ "/api/images", []⟩
      match fetchResult with
      | .thrown _ => (plainErrorResponse 500 "Internal server error", some out)
      | .ok resp =>
        if resp.ok then
          match resp.jsonBody with
          | .ok data => (⟨200, data⟩, some out)
          | .thrown _ => (plainErrorResponse 500 "Internal server error", some out)
        else (plainErrorResponse 500 "Internal server error", some out)

/- ------------------------------------------------------------------
   LocalFileStorage (the local-storage image source)
   ------------------------------------------------------------------ -/

/-- A directory entry as seen through readdir plus stat: file name, whether
it is a regular file, and its modification time (epoch milliseconds; the
ISO-string round-trip in the source is monotone in this value). -/
structure DirEntry where
  fileName : String
  isFile : Bool
  mtime : Nat
deriving DecidableEq

/-- The metadata record built by LocalFileStorage for one image file. -/
structure ImageMetadata where
  id : String
  name : String
  url : String
  uploadedAt : Nat
deriving DecidableEq

/-- Index of the last dot in a character list, if any. -/
def lastDotIdx : List Char → Option Nat
  | [] => none
  | c :: cs =>
    match lastDotIdx cs with
    | some i => some (i + 1)
    | none => if c = '.' then some 0 else none

/-- Node path.extname: the suffix from the last dot, empty when there is no
dot or the name starts with its only dot. -/
def extname (s : String) : String :=
  match lastDotIdx s.data with
  | some i => if i = 0 then "" else ⟨s.data.drop i⟩
  | none => ""

/-- Node path.parse(...).name: the file name with its extension removed. -/
def nameWithoutExt (s : String) : String :=
  match lastDotIdx s.data with
  | some i => if i = 0 then s else ⟨s.data.take i⟩
  | none => s

/-- The extension allow-list used by LocalFileStorage.listImages. -/
def allowedExts : List String := [".jpg", ".jpeg", ".png", ".gif", ".webp", ".svg"]

/-- ASCII lower-casing of one character, as toLowerCase acts on the ASCII
extensions compared against the allow-list. -/
def charLower (c : Char) : Char :=
  if 'A' ≤ c ∧ c ≤ 'Z' then Char.ofNat (c.toNat + 32) else c

/-- ASCII lower-casing of a string. -/
def strLower (s : String) : String := ⟨s.data.map charLower⟩

/-- A directory entry is listed when it is a regular file whose lower-cased
extension is recognized. -/
def isImageFile (e : DirEntry) : Bool :=
  e.isFile && allowedExts.contains (strLower (extname e.fileName))

/-- The metadata built for one listed file: id is the file name, name drops
the extension, url joins the public path prefix with the file name, and
uploadedAt is the file modification time. -/
def toMetadata (publicPath : String) (e : DirEntry) : ImageMetadata :=
  { id := e.fileName
    name := nameWithoutExt e.fileName
    url := publicPath ++ "/" ++ e.fileName
    uploadedAt := e.mtime }

/-- The comparator of listImages: sort by upload date, newest first. -/
def byUploadedAtDesc (a b : ImageMetadata) : Prop := b.uploadedAt ≤ a.uploadedAt

instance : DecidableRel byUploadedAtDesc := fun a b => Nat.decLe b.uploadedAt a.uploadedAt

instance : IsTotal ImageMetadata byUploadedAtDesc := ⟨fun a b => le_total b.uploadedAt a.uploadedAt⟩

instance : IsTrans ImageMetadata byUploadedAtDesc :=
  ⟨fun _ _ _ hab hbc => le_trans hbc hab⟩

/-- LocalFileStorage.ensureUploadsDir: an absent uploads directory is
created empty before reading. -/
def ensureUploadsDir (dir : Option (List DirEntry)) : List DirEntry :=
  dir.getD []

/-- LocalFileStorage.listImages: create the directory if absent, keep the
regular files with a recognized image extension, build their metadata and
sort by upload time descending. -/
def listImages (publicPath : String) (dir : Option (List DirEntry)) : List ImageMetadata :=
  (((ensureUploadsDir dir).filter isImageFile).map (toMetadata publicPath)).insertionSort
    byUploadedAtDesc

/- ------------------------------------------------------------------
   Claim theorems
   ------------------------------------------------------------------ -/

/-- C1: for every request to a mutating endpoint (album create, update,
delete, add images, remove image, reorder, upload) in which
getServerSession yields no session, the handler returns status 401 with the
single-field Unauthorized error body, and no outbound backend request is
issued. -/
theorem unauthenticated_mutations_are_rejected (reqJson : JsResult Json)
    (backendUrl apiKey apiUrl : Option String) (id imageId : String)
    (fetchResult : JsResult FetchResponse) (k : ClientKind) (ws : Nat → Bool)
    (isDevelopment : Bool) (st : List Metric) (formData : JsResult (Option UploadFile)) :
    albums_POST none reqJson backendUrl apiKey fetchResult k ws isDevelopment st =
      (unauthorizedResponse, none) ∧
    albumId_PUT none reqJson backendUrl apiKey id fetchResult k ws isDevelopment st =
      (unauthorizedResponse, none) ∧
    albumId_DELETE none backendUrl apiKey id fetchResult k ws isDevelopment st =
      (unauthorizedResponse, none) ∧
    albumImages_POST none reqJson backendUrl apiKey id fetchResult =
      (unauthorizedResponse, none) ∧
    albumImage_DELETE none backendUrl apiKey id imageId fetchResult =
      (unauthorizedResponse, none) ∧
    reorder_PUT none reqJson backendUrl apiKey id fetchResult k ws isDevelopment st =
      (unauthorizedResponse, none) ∧
    upload_POST none formData apiUrl apiKey fetchResult =
      (unauthorizedResponse, none) :=
  ⟨rfl, rfl, rfl, rfl, rfl, rfl, rfl⟩

/-- C2 counterexample: the frozen claim also asserts that for a 500 the
error field never contains the real message of the incoming error; it does
when that message happens to be the masking string itself. -/
theorem createErrorResponse_contains_degenerate_message :
    (createErrorResponse (.errObj ⟨"Error", "Internal server error", ""⟩) 500 none false).error
        = "Internal server error" ∧
    strContains
        (createErrorResponse (.errObj ⟨"Error", "Internal server error", ""⟩) 500 none false).error
        (extractErrorMessage (.errObj ⟨"Error", "Internal server error", ""⟩)) = true := by
  constructor
  · rfl
  · decide

/-- C2 amended: with no userMessage, a status of at least 500 always yields
the fixed error field Internal server error, independent of the incoming
error, so the real message can only occur inside it when that message is
itself a substring of the fixed string; a status in the 400 to 499 range
yields the extracted message verbatim.  The same holds for the body built
by handleApiError. -/
theorem errorResponse_masking (e : JsUnknown) (s : Nat) (isDevelopment : Bool) :
    (500 ≤ s →
      (createErrorResponse e s none isDevelopment).error = "Internal server error" ∧
      (handleApiError e s none isDevelopment).status = s ∧
      (handleApiError e s none isDevelopment).body.getField "error" =
        some (Json.str "Internal server error") ∧
      (strContains "Internal server error" (extractErrorMessage e) = false →
        strContains (createErrorResponse e s none isDevelopment).error
          (extractErrorMessage e) = false)) ∧
    (400 ≤ s → s < 500 →
      (createErrorResponse e s none isDevelopment).error = extractErrorMessage e ∧
      (handleApiError e s none isDevelopment).status = s ∧
      (handleApiError e s none isDevelopment).body.getField "error" =
        some (Json.str (extractErrorMessage e))) := by
  constructor
  · intro h5
    have hexp : shouldExposeError s = false := by
      simp only [shouldExposeError, decide_eq_false_iff_not, not_and, not_lt]
      omega
    refine ⟨?_, rfl, ?_, ?_⟩
    · simp [createErrorResponse, hexp]
    · simp [handleApiError, createErrorResponse, hexp, ErrorResponse.toJson,
        Json.getField, jsonLookup]
    · intro hno
      simpa [createErrorResponse, hexp] using hno
  · intro h4 h5
    have hexp : shouldExposeError s = true := by
      simp only [shouldExposeError, decide_eq_true_eq]
      omega
    refine ⟨?_, rfl, ?_⟩
    · simp [createErrorResponse, hexp]
    · simp [handleApiError, createErrorResponse, hexp, ErrorResponse.toJson,
        Json.getField, jsonLookup]

/-- C2 witness: the masking theorem applied at status 500 and 400 with the
leaked-secret message of the spec's own test. -/
theorem errorResponse_masking_witness :
    (createErrorResponse (.errObj ⟨"Error", "database connection string leaked", ""⟩)
        500 none false).error = "Internal server error" ∧
    (createErrorResponse (.errObj ⟨"Error", "database connection string leaked", ""⟩)
        400 none false).error =
      extractErrorMessage (.errObj ⟨"Error", "database connection string leaked", ""⟩) :=
  ⟨((errorResponse_masking (.errObj ⟨"Error", "database connection string leaked", ""⟩)
      500 false).1 (by decide)).1,
   ((errorResponse_masking (.errObj ⟨"Error", "database connection string leaked", ""⟩)
      400 false).2 (by decide) (by decide)).1⟩

/-- C3: whenever the backend answers GET /api/albums/id with any non-ok
status, the route returns 404 and the body's error field is Album not
found, independent of the backend status code and error body. -/
theorem albumId_GET_nonok_is_404 (backendUrl : Option String) (id : String)
    (resp : FetchResponse) (k : ClientKind) (ws : Nat → Bool) (isDevelopment : Bool)
    (st : List Metric) (hok : resp.ok = false) :
    (albumId_GET backendUrl id (.ok resp) k ws isDevelopment st).1.status = 404 ∧
    (albumId_GET backendUrl id (.ok resp) k ws isDevelopment st).1.body.getField "error" =
      some (Json.str "Album not found") := by
  have htr : (trackOperation k ws "FetchAlbum" (fetchAlbumFetch (.ok resp)) st).1 =
      .thrown ⟨"Error", "Album not found", ""⟩ := by
    have hfn : fetchAlbumFetch (.ok resp) = .thrown ⟨"Error", "Album not found", ""⟩ := by
      simp [fetchAlbumFetch, hok]
    rw [hfn]
    exact trackOperation_fst k ws "FetchAlbum" _ st
  constructor
  · simp [albumId_GET, htr, handleApiError]
  · simp [albumId_GET, htr, handleApiError, createErrorResponse, shouldExposeError,
      extractErrorMessage, ErrorResponse.toJson, Json.getField, jsonLookup]

/-- C3 witness: a concrete backend 502 with its own error body still maps
to the fixed 404 response. -/
theorem albumId_GET_nonok_is_404_witness :
    (albumId_GET (some "http://localhost:8080") "album-1"
        (.ok ⟨false, 502, .ok (Json.obj [("error", Json.str "Bad gateway")]), ""⟩)
        .noop (fun _ => true) false []).1.status = 404 ∧
    (albumId_GET (some "http://localhost:8080") "album-1"
        (.ok ⟨false, 502, .ok (Json.obj [("error", Json.str "Bad gateway")]), ""⟩)
        .noop (fun _ => true) false []).1.body.getField "error" =
      some (Json.str "Album not found") :=
  albumId_GET_nonok_is_404 (some "http://localhost:8080") "album-1"
    ⟨false, 502, .ok (Json.obj [("error", Json.str "Bad gateway")]), ""⟩
    .noop (fun _ => true) false [] rfl

/-- C4: for an authenticated upload of a file with an allowed MIME type,
the 50 MiB ceiling is inclusive: a size up to 50 times 1024 times 1024
bytes passes the size check and the request proceeds to the backend, while
one byte more is rejected with 400 File too large and no backend call. -/
theorem upload_size_boundary (file : UploadFile) (apiUrl apiKey : Option String)
    (fetchResult : JsResult FetchResponse)
    (htype : validTypes.contains file.type = true) :
    (file.size ≤ 50 * 1024 * 1024 →
      (upload_POST (some ()) (.ok (some file)) apiUrl apiKey fetchResult).2 ≠ none) ∧
    (50 * 1024 * 1024 < file.size →
      upload_POST (some ()) (.ok (some file)) apiUrl apiKey fetchResult =
        (plainErrorResponse 400 "File too large", none)) := by
  constructor
  · intro hsize
    have hgt : ¬ (file.size > 50 * 1024 * 1024) := by omega
    simp only [upload_POST, if_neg hgt, htype, Bool.not_true, Bool.false_eq_true,
      if_false]
    cases fetchResult with
    | thrown e => simp
    | ok resp =>
      cases hok : resp.ok <;> simp [hok]
      cases resp.jsonBody <;> simp
  · intro hsize
    have hgt : file.size > 50 * 1024 * 1024 := hsize
    simp [upload_POST, if_pos hgt]

/-- C4 witness: a file of exactly 50 MiB proceeds to the backend; a file of
50 MiB plus one byte is rejected with 400 File too large and no call. -/
theorem upload_size_boundary_witness :
    (upload_POST (some ()) (.ok (some ⟨50 * 1024 * 1024, "image/png"⟩))
        (some "http://localhost:8080") none (.ok ⟨true, 200, .ok Json.null, ""⟩)).2 ≠ none ∧
    upload_POST (some ()) (.ok (some ⟨50 * 1024 * 1024 + 1, "image/png"⟩))
        (some "http://localhost:8080") none (.ok ⟨true, 200, .ok Json.null, ""⟩) =
      (plainErrorResponse 400 "File too large", none) :=
  ⟨(upload_size_boundary ⟨50 * 1024 * 1024, "image/png"⟩ (some "http://localhost:8080")
      none (.ok ⟨true, 200, .ok Json.null, ""⟩) (by decide)).1 (by decide),
   (upload_size_boundary ⟨50 * 1024 * 1024 + 1, "image/png"⟩ (some "http://localhost:8080")
      none (.ok ⟨true, 200, .ok Json.null, ""⟩) (by decide)).2 (by decide)⟩

/-- C5: for an authenticated upload with a file present and within the size
limit, the request proceeds to the backend exactly when the MIME type is on
the four-element allow-list; any other type is rejected with 400 Invalid
file type and no backend call. -/
theorem upload_type_allowlist (file : UploadFile) (apiUrl apiKey : Option String)
    (fetchResult : JsResult FetchResponse)
    (hsize : file.size ≤ 50 * 1024 * 1024) :
    ((upload_POST (some ()) (.ok (some file)) apiUrl apiKey fetchResult).2 ≠ none ↔
      validTypes.contains file.type = true) ∧
    (validTypes.contains file.type = false →
      upload_POST (some ()) (.ok (some file)) apiUrl apiKey fetchResult =
        (plainErrorResponse 400 "Invalid file type", none)) := by
  have hgt : ¬ (file.size > 50 * 1024 * 1024) := by omega
  constructor
  · constructor
    · intro hcall
      by_contra hty
      have hmem : file.type ∉ validTypes := by
        intro hm
        exact hty (by simpa using hm)
      apply hcall
      simp [upload_POST, if_neg hgt, hmem]
    · intro hty
      have hmem : file.type ∈ validTypes := by simpa using hty
      cases fetchResult with
      | thrown e => simp [upload_POST, if_neg hgt, hmem]
      | ok resp =>
        cases hok : resp.ok <;> cases hj : resp.jsonBody <;>
          simp [upload_POST, if_neg hgt, hmem, hok, hj]
  · intro hty
    have hmem : file.type ∉ validTypes := by
      intro hm
      have : validTypes.contains file.type = true := by simpa using hm
      rw [hty] at this
      exact Bool.false_ne_true this
    simp [upload_POST, if_neg hgt, hmem]

/-- C5 witness: an image/webp file proceeds to the backend while an
application/pdf file of the same size is rejected with 400 Invalid file
type and no call. -/
theorem upload_type_allowlist_witness :
    ((upload_POST (some ()) (.ok (some ⟨1024, "image/webp"⟩))
        (some "http://localhost:8080") none (.ok ⟨true, 200, .ok Json.null, ""⟩)).2 ≠ none) ∧
    upload_POST (some ()) (.ok (some ⟨1024, "application/pdf"⟩))
        (some "http://localhost:8080") none (.ok ⟨true, 200, .ok Json.null, ""⟩) =
      (plainErrorResponse 400 "Invalid file type", none) :=
  ⟨((upload_type_allowlist ⟨1024, "image/webp"⟩ (some "http://localhost:8080") none
      (.ok ⟨true, 200, .ok Json.null, ""⟩) (by decide)).1).mpr (by decide),
   (upload_type_allowlist ⟨1024, "application/pdf"⟩ (some "http://localhost:8080") none
      (.ok ⟨true, 200, .ok Json.null, ""⟩) (by decide)).2 (by decide)⟩

/-- C6: trackOperation is fully transparent: for every operation outcome,
every metrics client backend and every sink-write outcome, its result is
exactly the wrapped operation's result, value and thrown error alike. -/
theorem trackOperation_transparent {T : Type} (k : ClientKind) (ws : Nat → Bool)
    (name : String) (op : JsResult T) (st : List Metric) :
    (trackOperation k ws name op st).1 = op :=
  trackOperation_fst k ws name op st

/-- C7: evaluation of the current POST /api/albums at the failing input of
the claim: the backend answers 400 with its own JSON error body, yet the
route masks it to a plain 500 Internal server error instead of passing the
backend status and body through (which the repository's own test, forward
validation errors from backend, expects). -/
theorem albums_POST_masks_backend_errors :
    albums_POST (some ()) (.ok (Json.obj [])) (some "http://localhost:8080") (some "k")
      (.ok ⟨false, 400, .ok (Json.obj [("error", Json.str "Invalid album data")]), ""⟩)
      .noop (fun _ => true) false [] =
    (⟨500, Json.obj [("error", Json.str "Internal server error")]⟩,
      some ⟨"http://localhost:8080/api/albums",
        [("Content-Type", "application/json"), ("X-API-Key", "k")]⟩) := rfl

/-- C8 counterexample: with the backend URL unset, the add-images proxy
route does not return the not-configured error; it builds the outbound URL
from the string undefined, issues the call, and surfaces the resulting
failure as a generic 500. -/
theorem albumImages_POST_missing_url_counterexample :
    albumImages_POST (some ()) (.ok (Json.obj [])) none none "album-1"
      (.thrown ⟨"TypeError", "fetch failed", ""⟩) =
    (plainErrorResponse 500 "Internal server error",
      some ⟨"undefined/api/albums/album-1/images",
        [("Content-Type", "application/json"), ("X-API-Key", "")]⟩) := rfl

/-- A 500 produced by handleApiError always carries the masked error field,
in development mode as well. -/
theorem handleApiError_masked500 (e : JsUnknown) (isDevelopment : Bool) :
    (handleApiError e 500 none isDevelopment).status = 500 ∧
    (handleApiError e 500 none isDevelopment).body.getField "error" =
      some (Json.str "Internal server error") := by
  refine ⟨rfl, ?_⟩
  simp [handleApiError, createErrorResponse, shouldExposeError, ErrorResponse.toJson,
    Json.getField, jsonLookup]

/-- C8 amended: only the backend-proxying image-listing operation detects
an absent or empty backend URL and returns 500 Backend API not configured
without any outbound call; every album proxy route performs no
configuration check and instead issues its outbound request with the
string undefined as base URL (for every session-passing input, every
backend outcome, every metrics client and state); when that fetch then
fails, each mutating album route surfaces a generic 500 Internal server
error, while the single-album GET surfaces its 404 override. -/
theorem backend_url_absent_behaviour (fetchResult : JsResult FetchResponse)
    (err : JsError) (reqJson : Json) (apiKey : Option String) (id imageId : String)
    (k : ClientKind) (ws : Nat → Bool) (isDevelopment : Bool) (st : List Metric) :
    images_GET none fetchResult =
      (plainErrorResponse 500 "Backend API not configured", none) ∧
    images_GET (some "") fetchResult =
      (plainErrorResponse 500 "Backend API not configured", none) ∧
    (albums_POST (some ()) (.ok reqJson) none apiKey fetchResult k ws
        isDevelopment st).2 =
      some ⟨"undefined/api/albums", createAlbumHeaders apiKey⟩ ∧
    (albumId_GET none id fetchResult k ws isDevelopment st).2 =
      some ⟨"undefined/api/albums/" ++ id, []⟩ ∧
    (albumId_PUT (some ()) (.ok reqJson) none apiKey id fetchResult k ws
        isDevelopment st).2 =
      some ⟨"undefined/api/albums/" ++ id, updateAlbumHeaders apiKey⟩ ∧
    (albumId_DELETE (some ()) none apiKey id fetchResult k ws isDevelopment st).2 =
      some ⟨"undefined/api/albums/" ++ id, deleteAlbumHeaders apiKey⟩ ∧
    (albumImages_POST (some ()) (.ok reqJson) none apiKey id fetchResult).2 =
      some ⟨"undefined/api/albums/" ++ id ++ "/images", addImagesHeaders apiKey⟩ ∧
    (albumImage_DELETE (some ()) none apiKey id imageId fetchResult).2 =
      some ⟨"undefined/api/albums/" ++ id ++ "/images/" ++ imageId,
        removeImageHeaders apiKey⟩ ∧
    (reorder_PUT (some ()) (.ok reqJson) none apiKey id fetchResult k ws
        isDevelopment st).2 =
      some ⟨"undefined/api/albums/" ++ id ++ "/reorder", reorderHeaders apiKey⟩ ∧
    ((albums_POST (some ()) (.ok reqJson) none apiKey (.thrown err) k ws
        isDevelopment st).1.status = 500 ∧
      (albums_POST (some ()) (.ok reqJson) none apiKey (.thrown err) k ws
          isDevelopment st).1.body.getField "error" =
        some (Json.str "Internal server error")) ∧
    ((albumId_PUT (some ()) (.ok reqJson) none apiKey id (.thrown err) k ws
        isDevelopment st).1.status = 500 ∧
      (albumId_PUT (some ()) (.ok reqJson) none apiKey id (.thrown err) k ws
          isDevelopment st).1.body.getField "error" =
        some (Json.str "Internal server error")) ∧
    ((albumId_DELETE (some ()) none apiKey id (.thrown err) k ws
        isDevelopment st).1.status = 500 ∧
      (albumId_DELETE (some ()) none apiKey id (.thrown err) k ws
          isDevelopment st).1.body.getField "error" =
        some (Json.str "Internal server error")) ∧
    ((reorder_PUT (some ()) (.ok reqJson) none apiKey id (.thrown err) k ws
        isDevelopment st).1.status = 500 ∧
      (reorder_PUT (some ()) (.ok reqJson) none apiKey id (.thrown err) k ws
          isDevelopment st).1.body.getField "error" =
        some (Json.str "Internal server error")) ∧
    (albumImages_POST (some ()) (.ok reqJson) none apiKey id (.thrown err)).1 =
      plainErrorResponse 500 "Internal server error" ∧
    (albumImage_DELETE (some ()) none apiKey id imageId (.thrown err)).1 =
      plainErrorResponse 500 "Internal server error" ∧
    (albumId_GET none id (.thrown err) k ws isDevelopment st).1.status = 404 := by
  have hCreate : (trackOperation k ws "CreateAlbum"
      (createAlbumFetch (.thrown err)) st).1 = .thrown err :=
    trackOperation_fst k ws "CreateAlbum" (createAlbumFetch (.thrown err)) st
  have hUpdate : (trackOperation k ws "UpdateAlbum"
      (updateAlbumFetch (.thrown err)) st).1 = .thrown err :=
    trackOperation_fst k ws "UpdateAlbum" (updateAlbumFetch (.thrown err)) st
  have hDelete : (trackOperation k ws "DeleteAlbum"
      (deleteAlbumFetch (.thrown err)) st).1 = .thrown err :=
    trackOperation_fst k ws "DeleteAlbum" (deleteAlbumFetch (.thrown err)) st
  have hReorder : (trackOperation k ws "ReorderAlbumImages"
      (JsResult.thrown err : JsResult FetchResponse) st).1 = .thrown err :=
    trackOperation_fst k ws "ReorderAlbumImages"
      (JsResult.thrown err : JsResult FetchResponse) st
  have hFetch : (trackOperation k ws "FetchAlbum"
      (fetchAlbumFetch (.thrown err)) st).1 = .thrown err :=
    trackOperation_fst k ws "FetchAlbum" (fetchAlbumFetch (.thrown err)) st
  refine ⟨rfl, rfl, ?_, ?_, ?_, ?_, ?_, ?_, ?_, ?_, ?_, ?_, ?_, rfl, rfl, ?_⟩
  · cases h : (trackOperation k ws "CreateAlbum" (createAlbumFetch fetchResult) st).1 <;>
      simp [albums_POST, h, jsTemplateOpt]
  · cases h : (trackOperation k ws "FetchAlbum" (fetchAlbumFetch fetchResult) st).1 <;>
      simp [albumId_GET, h, jsTemplateOpt]
  · cases h : (trackOperation k ws "UpdateAlbum" (updateAlbumFetch fetchResult) st).1 <;>
      simp [albumId_PUT, h, jsTemplateOpt]
  · cases h : (trackOperation k ws "DeleteAlbum" (deleteAlbumFetch fetchResult) st).1 <;>
      simp [albumId_DELETE, h, jsTemplateOpt]
  · cases fetchResult with
    | thrown e => rfl
    | ok resp =>
      cases hok : resp.ok <;> cases hj : resp.jsonBody <;>
        simp [albumImages_POST, hok, hj, jsTemplateOpt]
  · cases fetchResult with
    | thrown e => rfl
    | ok resp =>
      cases hok : resp.ok <;> cases hj : resp.jsonBody <;>
        simp [albumImage_DELETE, hok, hj, jsTemplateOpt]
  · cases h : (trackOperation k ws "ReorderAlbumImages" fetchResult st).1 with
    | thrown e => simp [reorder_PUT, h, jsTemplateOpt]
    | ok resp =>
      cases hok : resp.ok <;> cases hj : resp.jsonBody <;>
        simp [reorder_PUT, h, hok, hj, jsTemplateOpt]
  · exact ⟨by simp [albums_POST, hCreate, handleApiError],
      by simpa [albums_POST, hCreate] using
        (handleApiError_masked500 (.errObj err) isDevelopment).2⟩
  · exact ⟨by simp [albumId_PUT, hUpdate, handleApiError],
      by simpa [albumId_PUT, hUpdate] using
        (handleApiError_masked500 (.errObj err) isDevelopment).2⟩
  · exact ⟨by simp [albumId_DELETE, hDelete, handleApiError],
      by simpa [albumId_DELETE, hDelete] using
        (handleApiError_masked500 (.errObj err) isDevelopment).2⟩
  · exact ⟨by simp [reorder_PUT, hReorder, handleApiError],
      by simpa [reorder_PUT, hReorder] using
        (handleApiError_masked500 (.errObj err) isDevelopment).2⟩
  · simp [albumId_GET, hFetch, handleApiError]

/-- C9: listImages on any directory state: an absent directory is created
and yields the empty listing; otherwise the result is exactly one metadata
entry per regular file with a recognized image extension (id is the file
name, name drops the extension, url joins the public prefix and the file
name, uploadedAt is the modification time), sorted by uploadedAt
descending; in particular three files written at increasing times come back
newest first. -/
theorem listImages_spec (publicPath : String) (dir : Option (List DirEntry)) :
    listImages publicPath none = [] ∧
    (listImages publicPath dir).Perm
      (((ensureUploadsDir dir).filter isImageFile).map (toMetadata publicPath)) ∧
    (listImages publicPath dir).Sorted byUploadedAtDesc ∧
    (∀ e1 e2 e3 : DirEntry, isImageFile e1 = true → isImageFile e2 = true →
      isImageFile e3 = true → e1.mtime < e2.mtime → e2.mtime < e3.mtime →
      listImages publicPath (some [e1, e2, e3]) =
        [toMetadata publicPath e3, toMetadata publicPath e2, toMetadata publicPath e1]) := by
  refine ⟨rfl, List.perm_insertionSort byUploadedAtDesc _,
    List.sorted_insertionSort byUploadedAtDesc _, ?_⟩
  intro e1 e2 e3 h1 h2 h3 t12 t23
  have r12 : ¬ byUploadedAtDesc (toMetadata publicPath e1) (toMetadata publicPath e2) := by
    simp only [byUploadedAtDesc, toMetadata, not_le]
    omega
  have r13 : ¬ byUploadedAtDesc (toMetadata publicPath e1) (toMetadata publicPath e3) := by
    simp only [byUploadedAtDesc, toMetadata, not_le]
    omega
  have r23 : ¬ byUploadedAtDesc (toMetadata publicPath e2) (toMetadata publicPath e3) := by
    simp only [byUploadedAtDesc, toMetadata, not_le]
    omega
  simp [listImages, ensureUploadsDir, h1, h2, h3, List.insertionSort,
    List.orderedInsert, r12, r13, r23]

/-- C9 witness: listImages applied to three concrete files written at times
1, 2, 3 returns them newest first with the expected metadata fields. -/
theorem listImages_spec_witness :
    listImages "/uploads"
        (some [⟨"a.jpg", true, 1⟩, ⟨"b.png", true, 2⟩, ⟨"c.webp", true, 3⟩]) =
      [toMetadata "/uploads" ⟨"c.webp", true, 3⟩,
       toMetadata "/uploads" ⟨"b.png", true, 2⟩,
       toMetadata "/uploads" ⟨"a.jpg", true, 1⟩] :=
  (listImages_spec "/uploads"
      (some [⟨"a.jpg", true, 1⟩, ⟨"b.png", true, 2⟩, ⟨"c.webp", true, 3⟩])).2.2.2
    ⟨"a.jpg", true, 1⟩ ⟨"b.png", true, 2⟩ ⟨"c.webp", true, 3⟩
    (by decide) (by decide) (by decide) (by decide) (by decide)

/-- C10: with GARA_API_KEY unset, every mutating album proxy route still
sends an X-API-Key header whose value is the empty string, while the upload
route omits the header entirely. -/
theorem apiKey_unset_header_behaviour :
    ("X-API-Key", "") ∈ createAlbumHeaders none ∧
    ("X-API-Key", "") ∈ updateAlbumHeaders none ∧
    ("X-API-Key", "") ∈ deleteAlbumHeaders none ∧
    ("X-API-Key", "") ∈ addImagesHeaders none ∧
    ("X-API-Key", "") ∈ removeImageHeaders none ∧
    ("X-API-Key", "") ∈ reorderHeaders none ∧
    uploadHeaders none = [] := by
  refine ⟨?_, ?_, ?_, ?_, ?_, ?_, rfl⟩ <;> simp [createAlbumHeaders, updateAlbumHeaders,
    deleteAlbumHeaders, addImagesHeaders, removeImageHeaders, reorderHeaders, jsOrString]
